import Mathlib

/-!
Verification development for the compliance-audit-router repository.

The definitions below are a shallow embedding of the Go sources:
  * `pkg/splunk` (alert.go and the SearchResult field accessors):
    `SplunkValue`, `SearchResult`, `SearchResult.string`, `SearchResult.slice`,
    `SearchResult.time`, `AlertDetails`, `NewAlertDetails`, `Alert.Details`.
  * `pkg/jira`: `CreateTicket`, `HandleUpdate`, `getTransitionId`, label parsing.
  * `pkg/listeners`: `ProcessAlertHandler`, `ProcessJiraWebhook`.

Notes on the embedding:
  * Go machine effects (HTTP calls to Splunk/Jira/LDAP) are supplied by
    environment records of function-valued fields; each modelled function
    returns the list of outbound calls it makes (its trace) alongside its
    result, so that claims about which side effects happen are provable.
  * A Go panic (unchecked type assertion, nil-pointer dereference) is
    modelled by `Option`: `none` is a panic, `some r` is a normal result.
  * Go `error` values are modelled by `Except String`, with the wrapped
    message text concatenated the way `fmt.Errorf` builds it.
-/

/-! ## Splunk search-result values (pkg/splunk) -/

/-- A value stored in a Splunk `SearchResult` map (Go `interface{}` after JSON
decoding or direct construction): a string, a `[]string`, a heterogeneous
`[]interface{}`, or some other scalar (number, bool, ...) carrying the string
rendering `fmt.Sprint` would produce for it. -/
inductive SplunkValue where
  | str (s : String)
  | strList (xs : List String)
  | iface (xs : List SplunkValue)
  | other (rendering : String)
deriving Repr

mutual

/-- Go `fmt.Sprint` on a single `interface{}` value. -/
def SplunkValue.sprint : SplunkValue → String
  | .str s => s
  | .strList xs => "[" ++ String.intercalate " " xs ++ "]"
  | .iface xs => "[" ++ SplunkValue.sprintList xs ++ "]"
  | .other rendering => rendering

/-- Space-separated rendering of a list of values, as `fmt.Sprint` does for
slices. -/
def SplunkValue.sprintList : List SplunkValue → String
  | [] => ""
  | [x] => x.sprint
  | x :: xs => x.sprint ++ " " ++ SplunkValue.sprintList xs

end

/-- Go `map[string]interface{}` (splunk.SearchResult), as an association list
with at most one binding per key. -/
abbrev SearchResult : Type := List (String × SplunkValue)

/-- Map access `a[field]` on a `SearchResult`. -/
def SearchResult.lookupField (a : SearchResult) (field : String) : Option SplunkValue :=
  (List.find? (fun p => p.1 == field) a).map (fun p => p.2)

/-- Model of `SearchResult.string` (splunk field accessors file): a missing field is
logged and degrades to `""`; a present field is rendered with `fmt.Sprint`. -/
def SearchResult.string (a : SearchResult) (field : String) : String :=
  match a.lookupField field with
  | none => ""
  | some i => i.sprint

/-- Model of `SearchResult.slice`: a missing field degrades to `[]`; a scalar string
becomes a one-element slice; a `[]string` is copied; a `[]interface{}` is
converted element-wise with the unchecked assertion `e.(string)`, which
panics (`none`) on a non-string element; any other scalar is logged and the
`values` slice stays empty. -/
def SearchResult.slice (a : SearchResult) (field : String) : Option (List String) :=
  match a.lookupField field with
  | none => some []
  | some i =>
    match i with
    | .str v => some [v]
    | .strList v => some v
    | .iface v =>
      v.mapM (fun e =>
        match e with
        | .str s => some s
        | _ => none)
    | .other _ => some []

/-- Go `time.Time` restricted to what the fixed Splunk layout can produce.
The zero value is January 1 of year 1, 00:00:00 (Go `time.Time{}`). -/
structure GoTime where
  year : Nat
  month : Nat
  day : Nat
  hour : Nat
  minute : Nat
  second : Nat
deriving Repr, DecidableEq

/-- Go `time.Time{}`. -/
def GoTime.zero : GoTime := ⟨1, 1, 1, 0, 0, 0⟩

/-- Gregorian leap-year test, as Go `time` uses for date validation. -/
def isLeapYear (y : Nat) : Bool := y % 4 == 0 && (y % 100 != 0 || y % 400 == 0)

/-- Number of days in a month, for the date-range validation `time.Parse`
performs. -/
def daysInMonth (y m : Nat) : Nat :=
  if m = 2 then (if isLeapYear y then 29 else 28)
  else if m = 4 ∨ m = 6 ∨ m = 9 ∨ m = 11 then 30
  else 31

/-- Read exactly `n` decimal digits from the front of a character list. -/
def readDigits : Nat → List Char → Option (Nat × List Char)
  | 0, cs => some (0, cs)
  | Nat.succ _, [] => none
  | Nat.succ k, c :: cs =>
    if c.isDigit then
      match readDigits k cs with
      | some (v, rest) => some ((c.toNat - 48) * 10 ^ k + v, rest)
      | none => none
    else none

/-- Consume one expected literal character. -/
def readLit (c : Char) : List Char → Option (List Char)
  | [] => none
  | x :: xs => if x = c then some xs else none

/-- Model of `time.Parse` with the fixed layout `2006-01-02T15:04:05.GMT` (the constant
`SplunkTimeFormat`; the trailing `.GMT` is literal text). `none` models a
parse error. Range validation mirrors what Go performs (month 1..12, day
valid for the month and year, hour below 24, minute and second below 60). -/
def parseSplunkTime (s : String) : Option GoTime :=
  match readDigits 4 s.data with
  | none => none
  | some (year, r1) =>
  match readLit '-' r1 with
  | none => none
  | some r2 =>
  match readDigits 2 r2 with
  | none => none
  | some (month, r3) =>
  match readLit '-' r3 with
  | none => none
  | some r4 =>
  match readDigits 2 r4 with
  | none => none
  | some (day, r5) =>
  match readLit 'T' r5 with
  | none => none
  | some r6 =>
  match readDigits 2 r6 with
  | none => none
  | some (hour, r7) =>
  match readLit ':' r7 with
  | none => none
  | some r8 =>
  match readDigits 2 r8 with
  | none => none
  | some (minute, r9) =>
  match readLit ':' r9 with
  | none => none
  | some r10 =>
  match readDigits 2 r10 with
  | none => none
  | some (second, r11) =>
  match readLit '.' r11 with
  | none => none
  | some r12 =>
  match readLit 'G' r12 with
  | none => none
  | some r13 =>
  match readLit 'M' r13 with
  | none => none
  | some r14 =>
  match readLit 'T' r14 with
  | none => none
  | some r15 =>
    if r15 = [] ∧ 1 ≤ month ∧ month ≤ 12 ∧ 1 ≤ day ∧ day ≤ daysInMonth year month
        ∧ hour < 24 ∧ minute < 60 ∧ second < 60 then
      some ⟨year, month, day, hour, minute, second⟩
    else none

/-- Model of `SearchResult.time`: render the field as a string; a non-empty string is
parsed with the fixed layout, and a parse failure is logged and degrades to
the zero time, as does an empty rendering. -/
def SearchResult.time (a : SearchResult) (field : String) : GoTime :=
  let s := a.string field
  if s ≠ "" then
    match parseSplunkTime s with
    | some t => t
    | none => GoTime.zero
  else GoTime.zero

/-! ## AlertDetails (pkg/splunk/alert.go) -/

/-- Model of `splunk.AlertDetails` (alert.go). The Go field `Timestamp` has type
`time.Time`, modelled by `GoTime`. -/
structure AlertDetails where
  AlertName : String
  User : String
  Group : String
  Timestamp : GoTime
  ClusterIDs : List String
  ClusterText : String
  ElevatedSummary : List String
  ElevatedSummaryText : String
  Reasons : List String
  ReasonsText : String
deriving Repr, DecidableEq

/-- Model of `AlertDetails.Valid` (alert.go): alert name, user and group non-empty and
at least one cluster id. -/
def AlertDetails.Valid (a : AlertDetails) : Bool :=
  a.AlertName != "" && a.User != "" && a.Group != "" && decide (a.ClusterIDs.length > 0)

/-- Model of `AlertDetails.Name` (alert.go). -/
def AlertDetails.Name (a : AlertDetails) : String := a.AlertName

/-- Model of `AlertDetails.Body` (alert.go): the ticket description assembled from the
user, alert name and the precomputed display strings. -/
def AlertDetails.Body (a : AlertDetails) : String :=
  a.User ++ " - " ++ a.Name ++ "\n\n" ++ a.ClusterText ++ "\n\n"
    ++ a.ElevatedSummaryText ++ "\n\n" ++ a.ReasonsText

/-- Zero-pad a natural number to `width` digits (worker for the Go
renderings below). -/
def padNat (width n : Nat) : String :=
  let s := toString n
  String.mk (List.replicate (width - s.length) '0') ++ s

/-- Go rendering of a `time.Time` produced by the fixed Splunk layout
(UTC): `yyyy-mm-dd hh:mm:ss +0000 UTC`. -/
def GoTime.render (t : GoTime) : String :=
  padNat 4 t.year ++ "-" ++ padNat 2 t.month ++ "-" ++ padNat 2 t.day ++ " "
    ++ padNat 2 t.hour ++ ":" ++ padNat 2 t.minute ++ ":" ++ padNat 2 t.second
    ++ " +0000 UTC"

/-- Go `fmt.Sprint` rendering of a `[]string`. -/
def sprintStrList (xs : List String) : String :=
  "[" ++ String.intercalate " " xs ++ "]"

/-- Go `%+v` rendering of an `AlertDetails` value, as interpolated into the
LDAP-failure diagnostic ticket body. -/
def formatAlertDetails (d : AlertDetails) : String :=
  "\x7bAlertName:" ++ d.AlertName ++ " User:" ++ d.User ++ " Group:" ++ d.Group
    ++ " Timestamp:" ++ d.Timestamp.render
    ++ " ClusterIDs:" ++ sprintStrList d.ClusterIDs
    ++ " ClusterText:" ++ d.ClusterText
    ++ " ElevatedSummary:" ++ sprintStrList d.ElevatedSummary
    ++ " ElevatedSummaryText:" ++ d.ElevatedSummaryText
    ++ " Reasons:" ++ sprintStrList d.Reasons
    ++ " ReasonsText:" ++ d.ReasonsText ++ "\x7d"

/-- Model of `splunk.NewAlertDetails` (alert.go). `none` models the panic that the
unchecked element assertion inside `SearchResult.slice` can raise. -/
def NewAlertDetails (result : SearchResult) : Option AlertDetails := do
  let clusterIDs ← result.slice "clusterid"
  let elevatedSummary ← result.slice "elevated_summary"
  let reasons ← result.slice "reason"
  some
    { AlertName := result.string "alertname"
      User := result.string "username"
      Group := result.string "group"
      Timestamp := result.time "timestamp"
      ClusterIDs := clusterIDs
      ClusterText := result.string "cluster_text"
      ElevatedSummary := elevatedSummary
      ElevatedSummaryText := result.string "elevated_summary_text"
      Reasons := reasons
      ReasonsText := result.string "reason_text" }

/-- Model of `splunk.SearchResults` (splunk.go); only the fields the core reads are
given interesting types. -/
structure SearchResults where
  InitOffset : Int
  Preview : Bool
  Results : List SearchResult

/-- Model of `splunk.Alert` (splunk.go). -/
structure Alert where
  SearchID : String
  SearchResults : SearchResults

/-- The loop body of `Alert.Details` (alert.go): normalize each raw result in
order, keeping the valid ones; a panic in `NewAlertDetails` propagates. -/
def detailsGo : List SearchResult → List AlertDetails → Option (List AlertDetails)
  | [], acc => some acc
  | r :: rest, acc =>
    match NewAlertDetails r with
    | none => none
    | some a => detailsGo rest (if a.Valid then acc ++ [a] else acc)

/-- Model of `Alert.Details` (alert.go). -/
def Alert.Details (w : Alert) : Option (List AlertDetails) :=
  detailsGo w.SearchResults.Results []

/-- Statement helper: normalize every raw result of a batch, in order,
propagating a panic. -/
def normalizeAll : List SearchResult → Option (List AlertDetails)
  | [] => some []
  | r :: rest =>
    match NewAlertDetails r, normalizeAll rest with
    | some a, some as' => some (a :: as')
    | _, _ => none

/-! ## Jira model (pkg/jira) -/

/-- Model of `jira.User`; only the fields the core reads. -/
structure JiraUser where
  AccountID : String
  Name : String
deriving Repr, DecidableEq

/-- Model of `jira.Transition` as returned by `GetTransitions`. -/
structure Transition where
  ID : String
  Name : String
deriving Repr, DecidableEq

/-- Model of `jira.IssueFields`; the Go `Assignee *jira.User` pointer is an `Option`,
with `none` for a nil assignee. -/
structure IssueFields where
  Labels : List String
  Assignee : Option JiraUser
deriving Repr, DecidableEq

/-- Model of `jira.Issue`; only the fields the core reads. -/
structure Issue where
  ID : String
  Key : String
  Fields : IssueFields
deriving Repr, DecidableEq

/-- Model of `jira.Comment`; only the fields the core reads. -/
structure JiraComment where
  Author : JiraUser
  Body : String
deriving Repr, DecidableEq

/-- Model of `jira.Webhook` (the notification payload decoded by ProcessJiraWebhook). -/
structure JiraWebhook where
  Issue : Issue
  Comment : JiraComment
deriving Repr, DecidableEq

/-- The label and transition-key constants of pkg/jira. -/
def managedLabel : String := "compliance-audit-router/managed"

/-- Label key recording the SRE account id. -/
def sreLabelKey : String := "compliance-audit-router/sre"

/-- Label key recording the manager account id. -/
def managerLabelKey : String := "compliance-audit-router/manager"

/-- Sentinel account id substituted when a Jira account resolution fails. -/
def unknownUser : String := "unknown"

/-- Transition-table key for the initial transition. -/
def initialTransitionKey : String := "initial"

/-- Transition-table key for the SRE response transition. -/
def sreTransitionKey : String := "sre"

/-- Transition-table key for the manager response transition. -/
def managerTransitionKey : String := "manager"

/-- Fixed summary of every created ticket. -/
def ticketSummary : String := "Compliance Alert: SRE Cluster Admin Elevation"

/-- The issue-creation request assembled by `CreateTicket` (the `jira.Issue`
literal it passes to `Create`). -/
structure IssueCreate where
  Reporter : JiraUser
  Description : String
  IssueType : String
  ProjectKey : String
  Summary : String
  Assignee : Option JiraUser
  Labels : List String
deriving Repr, DecidableEq

/-- One outbound call from pkg/jira to the Jira service objects. -/
inductive JiraCall where
  | getSelf
  | findUser (username : String)
  | createIssue (req : IssueCreate)
  | addComment (issueId : String) (body : String)
  | getIssue (issueId : String)
  | getTransitions (issueId : String)
  | doTransition (issueId : String) (transitionId : String)
deriving Repr, DecidableEq

/-- Calls that mutate the tracker (issue creation, comment posting,
transition application). -/
def JiraCall.isMutating : JiraCall → Bool
  | .createIssue _ => true
  | .addComment _ _ => true
  | .doTransition _ _ => true
  | _ => false

/-- Behaviour of the external Jira service objects (`*jira.UserService`,
`*jira.IssueService`): what each call would return. -/
structure JiraEnv where
  getSelf : Except String JiraUser
  findUser : String → Except String (List JiraUser)
  createIssue : IssueCreate → Except String Issue
  addComment : String → String → Except String Unit
  getIssue : String → Except String Issue
  getTransitions : String → Except String (List Transition)
  doTransition : String → String → Except String Unit

/-- The Go message template of `config.AppConfig.MessageTemplate`:
`parse` models `template.Parse` on the configured string, and the parsed
template maps the rendered username mention to the comment body, modelling
`template.Execute` (which can also fail). -/
structure TemplateModel where
  parse : Except String (String → Except String String)

/-- The slice of `config.AppConfig` that pkg/jira reads. -/
structure AppCfg where
  DryRun : Bool
  Verbose : Bool
  MessageTemplate : TemplateModel
  IssueType : String
  ProjectKey : String
  Transitions : List (String × String)

/-- Go map read `Transitions[key]`: the zero value `""` when the key is
absent. -/
def transitionsGet (m : List (String × String)) (key : String) : String :=
  (m.lookup key).getD ""

/-- The pure part of `jira.getUserByName`: an error from `Find`, or not
exactly one match, is an error; otherwise the single user. -/
def findOneUser (env : JiraEnv) (username : String) : Except String JiraUser :=
  match env.findUser username with
  | .error e => .error e
  | .ok [u] => .ok u
  | .ok us =>
      .error ("error finding user " ++ username ++ ": expected 1 user but found "
        ++ toString us.length)

/-- Model of `jira.getTransitionId`: in dry-run mode it returns a placeholder id
without consulting the tracker; otherwise it lists the issue transitions and
scans for the first one whose name equals `status`. -/
def getTransitionId (cfg : AppCfg) (env : JiraEnv) (issueId status : String) :
    List JiraCall × Except String String :=
  if cfg.DryRun then ([], .ok "dry-run-transition-id")
  else
    ([.getTransitions issueId],
      match env.getTransitions issueId with
      | .error e => .error e
      | .ok ts =>
        match ts.find? (fun t => t.Name == status) with
        | some t => .ok t.ID
        | none => .error ("did not find status " ++ status))

/-- Model of `jira.CreateTicket`. Returns the outbound-call trace and the result.
In dry-run mode the create/comment/transition side effects are replaced by
log lines (no call is recorded) while the reporter and user resolutions are
still performed. -/
def CreateTicket (cfg : AppCfg) (env : JiraEnv) (user manager description : String) :
    List JiraCall × Except String Unit :=
  match env.getSelf with
  | .error e => ([.getSelf], .error ("failed to get Jira user for reporter: " ++ e))
  | .ok reporter =>
    let sreUser := match findOneUser env user with
      | .ok u => u
      | .error _ => { AccountID := unknownUser, Name := "" }
    let managerUser := match findOneUser env manager with
      | .ok u => u
      | .error _ => { AccountID := unknownUser, Name := "" }
    let trace0 : List JiraCall := [.getSelf, .findUser user, .findUser manager]
    let req : IssueCreate :=
      { Reporter := reporter
        Description := description
        IssueType := cfg.IssueType
        ProjectKey := cfg.ProjectKey
        Summary := ticketSummary
        Assignee := if sreUser.AccountID ≠ unknownUser then some sreUser else none
        Labels :=
          if sreUser.AccountID ≠ unknownUser then
            [managedLabel, sreLabelKey ++ ":" ++ sreUser.AccountID,
              managerLabelKey ++ ":" ++ managerUser.AccountID]
          else [] }
    let createStep : List JiraCall × Except String Issue :=
      if cfg.DryRun then
        ([], .ok { ID := "", Key := "DRY-RUN-0000", Fields := { Labels := [], Assignee := none } })
      else ([.createIssue req], env.createIssue req)
    match createStep.2 with
    | .error e => (trace0 ++ createStep.1, .error ("failed to create issue: " ++ e))
    | .ok createdIssue =>
      match cfg.MessageTemplate.parse with
      | .error e =>
          (trace0 ++ createStep.1,
            .error ("failed to parse message template from AppConfig: " ++ e))
      | .ok render =>
        match render ("[~accountid:" ++ sreUser.AccountID ++ "]") with
        | .error e =>
            (trace0 ++ createStep.1,
              .error ("failed to apply parsed template to the specified data object: " ++ e))
        | .ok message =>
          let commentStep : List JiraCall × Except String Unit :=
            if cfg.DryRun then ([], .ok ())
            else ([.addComment createdIssue.ID message], env.addComment createdIssue.ID message)
          match commentStep.2 with
          | .error e =>
              (trace0 ++ createStep.1 ++ commentStep.1,
                .error ("issue " ++ createdIssue.Key
                  ++ " was successfully created but failed to apply initial comment: " ++ e))
          | .ok _ =>
            let initialStatusName := transitionsGet cfg.Transitions initialTransitionKey
            let tStep := getTransitionId cfg env createdIssue.ID initialStatusName
            match tStep.2 with
            | .error e =>
                (trace0 ++ createStep.1 ++ commentStep.1 ++ tStep.1,
                  .error ("failed to fetch ID for status " ++ initialStatusName ++ ": " ++ e))
            | .ok initialStatusId =>
              let doStep : List JiraCall × Except String Unit :=
                if cfg.DryRun then ([], .ok ())
                else
                  ([.doTransition createdIssue.ID initialStatusId],
                    env.doTransition createdIssue.ID initialStatusId)
              match doStep.2 with
              | .error e =>
                  (trace0 ++ createStep.1 ++ commentStep.1 ++ tStep.1 ++ doStep.1,
                    .error ("failed to transition issue " ++ createdIssue.Key
                      ++ " to status " ++ initialStatusName ++ ": " ++ e))
              | .ok _ =>
                  (trace0 ++ createStep.1 ++ commentStep.1 ++ tStep.1 ++ doStep.1, .ok ())

/-- Character-list prefix test (worker for the substring test below). -/
def isPrefixChars : List Char → List Char → Bool
  | [], _ => true
  | _ :: _, [] => false
  | c :: cs, x :: xs => c == x && isPrefixChars cs xs

/-- Character-list infix test (worker for the substring test below). -/
def isInfixChars (sub : List Char) : List Char → Bool
  | [] => isPrefixChars sub []
  | x :: xs => isPrefixChars sub (x :: xs) || isInfixChars sub xs

/-- Go `strings.Contains`. -/
def containsSubstring (s sub : String) : Bool :=
  isInfixChars sub.data s.data

/-- Split a character list at the first occurrence of `sep` (worker for
`stringCut`): the part before and the part after, or `none` when `sep` does
not occur. -/
def cutList (sep : List Char) : List Char → Option (List Char × List Char)
  | [] => if isPrefixChars sep [] then some ([], []) else none
  | x :: xs =>
    if isPrefixChars sep (x :: xs) then some ([], (x :: xs).drop sep.length)
    else
      match cutList sep xs with
      | some (bef, aft) => some (x :: bef, aft)
      | none => none

/-- Go `strings.Cut(s, sep)`: the parts before and after the first occurrence
of `sep`, and whether `sep` occurred. -/
def stringCut (s sep : String) : String × String × Bool :=
  match cutList sep.data s.data with
  | some (bef, aft) => (⟨bef⟩, ⟨aft⟩, true)
  | none => (s, "", false)

/-- The label-scanning loop of `jira.HandleUpdate`: recover the recorded SRE
and manager account ids from the issue labels (later labels overwrite
earlier ones; a label without a colon yields `""`). -/
def extractLabelIds (labels : List String) : String × String :=
  labels.foldl
    (fun p label =>
      let p := if containsSubstring label sreLabelKey then ((stringCut label ":").2.1, p.2) else p
      if containsSubstring label managerLabelKey then (p.1, (stringCut label ":").2.1) else p)
    ("", "")

/-- The transition-name choice of `jira.HandleUpdate`: the `sre`-keyed name
when the author id is the recorded SRE id, else the `manager`-keyed name when
it is the recorded manager id, else the zero value `""`. -/
def resolveTransitionName (cfg : AppCfg) (sreId managerId authorId : String) : String :=
  if sreId = authorId then transitionsGet cfg.Transitions sreTransitionKey
  else if managerId = authorId then transitionsGet cfg.Transitions managerTransitionKey
  else ""

/-- Model of `jira.HandleUpdate`. Returns the outbound-call trace and the result;
the result `none` models the nil-pointer panic raised when the refetched
issue has no assignee (the guard dereferences `Fields.Assignee` without a
nil check). In dry-run mode the whole handler is skipped. -/
def HandleUpdate (cfg : AppCfg) (env : JiraEnv) (webhook : JiraWebhook) :
    List JiraCall × Option (Except String Unit) :=
  if cfg.DryRun then ([], some (.ok ()))
  else
    match env.getIssue webhook.Issue.ID with
    | .error e =>
        ([.getIssue webhook.Issue.ID],
          some (.error ("failed to get issue " ++ webhook.Issue.Key
            ++ " from jira webhook: " ++ e)))
    | .ok webhookIssue =>
      let ids := extractLabelIds webhookIssue.Fields.Labels
      match webhookIssue.Fields.Assignee with
      | none => ([.getIssue webhook.Issue.ID], none)
      | some assignee =>
        if webhook.Comment.Author.AccountID ≠ assignee.AccountID then
          ([.getIssue webhook.Issue.ID], some (.ok ()))
        else
          let transitionName :=
            resolveTransitionName cfg ids.1 ids.2 webhook.Comment.Author.AccountID
          let tStep := getTransitionId cfg env webhookIssue.ID transitionName
          match tStep.2 with
          | .error e =>
              ([.getIssue webhook.Issue.ID] ++ tStep.1,
                some (.error ("failed to get transition ID for status " ++ transitionName
                  ++ " on issue " ++ webhookIssue.Key ++ ": " ++ e)))
          | .ok transitionId =>
            match env.doTransition webhookIssue.ID transitionId with
            | .error e =>
                ([.getIssue webhook.Issue.ID] ++ tStep.1
                    ++ [.doTransition webhookIssue.ID transitionId],
                  some (.error ("failed to transition issue " ++ webhookIssue.Key
                    ++ " to status " ++ transitionName ++ ": " ++ e)))
            | .ok _ =>
                ([.getIssue webhook.Issue.ID] ++ tStep.1
                    ++ [.doTransition webhookIssue.ID transitionId],
                  some (.ok ()))

/-! ## Listener handlers (pkg/listeners, metrics revision) -/

/-- The generic caller-safe error text of pkg/listeners. -/
def genericErrorMsg : String :=
  "The request could not be completed. Please contact the system administrator."

/-- Model of `splunk.Webhook` as the alert handler uses it (only the search id is
read). -/
structure SplunkWebhook where
  Sid : String
deriving Repr, DecidableEq

/-- Outcome of `helpers.DecodeJSONRequestBody`: a decoded payload, a typed
malformed-request error carrying the client-facing status and message, or any
other decoding error. -/
inductive Decode (α : Type) where
  | ok (a : α)
  | malformed (status : Nat) (msg : String)
  | otherError (e : String)

/-- One observable step of a listener handler: a response write
(`setResponse`, i.e. `WriteHeader` plus body), or an outbound call to a
collaborator (`RetrieveSearchFromAlert`, `ldap.LookupUser`,
`jira.CreateTicket`, `jira.HandleUpdate`). -/
inductive HEvent where
  | write (status : Nat) (body : String)
  | searchCall (sid : String)
  | ldapCall (user : String)
  | createTicketCall (user manager description : String)
  | handleUpdateCall
deriving Repr, DecidableEq

/-- Whether an event is a `jira.CreateTicket` invocation. -/
def HEvent.isCreate : HEvent → Bool
  | .createTicketCall _ _ _ => true
  | _ => false

/-- Whether an event is a response write. -/
def HEvent.isWrite : HEvent → Bool
  | .write _ _ => true
  | _ => false

/-- Whether an event is the `jira.HandleUpdate` invocation. -/
def HEvent.isHandleUpdate : HEvent → Bool
  | .handleUpdateCall => true
  | _ => false

/-- Collaborator behaviour for one `ProcessAlertHandler` request:
`decode` is the request-body decoding, `client` is `jira.DefaultClient`,
`search` is `RetrieveSearchFromAlert` by search id, `marshal` is
`json.MarshalIndent` on the webhook, `ldapEnabled` is
`config.AppConfig.LDAPConfig.Enabled`, `ldap` is `ldap.LookupUser` returning
(user, manager), and `createTicket n` is the outcome of the n-th
`jira.CreateTicket` invocation of the request (0-based). -/
structure AlertEnv where
  decode : Decode SplunkWebhook
  client : Except String Unit
  search : String → Except String Alert
  marshal : SplunkWebhook → Except String String
  ldapEnabled : Bool
  ldap : String → Except String (String × String)
  createTicket : Nat → Except String Unit

/-- The diagnostic ticket body built when search retrieval fails
(`ProcessAlertHandler`): the search id, the webhook rendering and the
retrieval error text, with a note interpolating the marshalling error
appended when the rendering itself failed (`jsonErr = some e`; the failed
rendering is the empty string, as `string(nil)` is in Go). -/
def diagnosticDetails (sid alertJson retrievalErr : String) (jsonErr : Option String) :
    String :=
  "A Compliance Alert was received from Splunk, but the alert details could not be retrieved. "
    ++ "Please review:\n"
    ++ "Splunk Webhook Search ID: " ++ sid ++ "\n"
    ++ "Splunk Webhook Data: " ++ alertJson ++ "\n"
    ++ "\nError: " ++ retrievalErr ++ "\n"
    ++ (match jsonErr with
        | some me =>
            "\nNOTE: The Splunk webhook data could not be marshalled to JSON.\n"
              ++ "This may indicate that the webhook data is incomplete."
              ++ "The error was: " ++ me ++ "\n"
        | none => "")

/-- The diagnostic ticket body built when the LDAP lookup of an alert user
fails (`ProcessAlertHandler`): the `%+v` rendering of the AlertDetails and
the lookup error text. -/
def ldapDiagnosticDetails (event : AlertDetails) (ldapErr : String) : String :=
  "A Compliance Alert was received from Splunk, but the user details could not be retrieved from LDAP."
    ++ "Please review and assign accordingly:\n"
    ++ "Compliance Data: " ++ formatAlertDetails event ++ "\n"
    ++ "\nError: " ++ ldapErr ++ "\n"

/-- The per-alert loop of `ProcessAlertHandler`: for each validated alert,
when LDAP is enabled the user is looked up (a failure files a diagnostic
ticket with no assignee embedding the AlertDetails, then writes the generic
500 whether or not that creation succeeded, and aborts the batch); then a
`jira.CreateTicket` call with `Body()` as the description (failure writes
the generic 500 and aborts the batch); an exhausted batch writes 200 `ok`.
`n` counts the `CreateTicket` invocations already made. -/
def processDetailsLoop (env : AlertEnv) : List AlertDetails → Nat → List HEvent
  | [], _ => [.write 200 "ok"]
  | d :: rest, n =>
    if env.ldapEnabled then
      .ldapCall d.User ::
        match env.ldap d.User with
        | .error e =>
          .createTicketCall "" "" (ldapDiagnosticDetails d e) ::
            (match env.createTicket n with
             | .error _ => [.write 500 genericErrorMsg]
             | .ok _ => [.write 500 genericErrorMsg])
        | .ok (user, manager) =>
          .createTicketCall user manager d.Body ::
            match env.createTicket n with
            | .error _ => [.write 500 genericErrorMsg]
            | .ok _ => processDetailsLoop env rest (n + 1)
    else
      .createTicketCall d.User "" d.Body ::
        match env.createTicket n with
        | .error _ => [.write 500 genericErrorMsg]
        | .ok _ => processDetailsLoop env rest (n + 1)

/-- Model of `listeners.ProcessAlertHandler` (metrics revision): the observable
event sequence of one request, paired with `some ()` for a normal return and
`none` for a panic escaping the handler (a `NewAlertDetails` panic inside
`Details()`). The body is decoded before the Jira client is built; a failed
client construction writes the generic 500 and returns. On a
search-retrieval failure one diagnostic ticket is filed and the generic 500
is written whether or not that creation succeeded. -/
def ProcessAlertHandler (env : AlertEnv) : List HEvent × Option Unit :=
  match env.decode with
  | .malformed st msg => ([.write st msg], some ())
  | .otherError _ => ([.write 500 genericErrorMsg], some ())
  | .ok webhook =>
    match env.client with
    | .error _ => ([.write 500 genericErrorMsg], some ())
    | .ok _ =>
      match env.search webhook.Sid with
      | .error e =>
        let rendered := match env.marshal webhook with
          | .ok s => (s, none)
          | .error me => ("", some me)
        ([.searchCall webhook.Sid,
          .createTicketCall "" "" (diagnosticDetails webhook.Sid rendered.1 e rendered.2)]
          ++ (match env.createTicket 0 with
              | .error _ => [.write 500 genericErrorMsg]
              | .ok _ => [.write 500 genericErrorMsg]),
          some ())
      | .ok searchResults =>
        match searchResults.Details with
        | none => ([.searchCall webhook.Sid], none)
        | some ds => (.searchCall webhook.Sid :: processDetailsLoop env ds 0, some ())

/-- Collaborator behaviour for one `ProcessJiraWebhook` request.
`handleUpdate` is the outcome of the `jira.HandleUpdate` invocation (made
only when the client was constructed). -/
structure JiraWebhookEnv where
  decode : Decode JiraWebhook
  client : Except String Unit
  handleUpdate : Except String Unit

/-- Model of `listeners.ProcessJiraWebhook` (metrics revision): the observable
event sequence of one request, paired with `some ()` for a normal return and
`none` for a panic. A failed client construction writes the generic 500 and
does not return; but `jira.DefaultClient` then produced a nil client, so the
very next expression `client.Issue` dereferences a nil pointer and the
handler panics before `jira.HandleUpdate` can be invoked — no second write
occurs. -/
def ProcessJiraWebhook (env : JiraWebhookEnv) : List HEvent × Option Unit :=
  match env.decode with
  | .malformed st msg => ([.write st msg], some ())
  | .otherError _ => ([.write 500 genericErrorMsg], some ())
  | .ok _ =>
    match env.client with
    | .error _ => ([.write 500 genericErrorMsg], none)
    | .ok _ =>
      (.handleUpdateCall
        :: (match env.handleUpdate with
            | .error _ => [.write 500 genericErrorMsg]
            | .ok _ => [.write 204 ""]),
        some ())

/-- Statement helper: the events the per-alert loop produces for one alert
whose processing succeeds up to (and including) its `CreateTicket`
invocation: with LDAP enabled, the lookup (resolving via `lu`/`lm`) and the
creation; with LDAP disabled, just the creation with the raw user and an
empty manager. -/
def eventsFor (env : AlertEnv) (lu lm : String → String) (d : AlertDetails) :
    List HEvent :=
  if env.ldapEnabled then
    [.ldapCall d.User, .createTicketCall (lu d.User) (lm d.User) d.Body]
  else
    [.createTicketCall d.User "" d.Body]

/-- Statement helper: the event sequence the per-alert loop produces for a
fully successful prefix of a batch. -/
def expectedBatchEvents (env : AlertEnv) (lu lm : String → String) :
    List AlertDetails → List HEvent
  | [] => []
  | d :: rest => eventsFor env lu lm d ++ expectedBatchEvents env lu lm rest

/-! ## Helper lemmas -/

/-- Whether a value is safe for the unchecked element assertion in
`SearchResult.slice`: a `[]interface{}` value must contain only strings;
every other shape is safe. -/
def SplunkValue.stringElems : SplunkValue → Bool
  | .iface xs => xs.all (fun e => match e with | .str _ => true | _ => false)
  | _ => true

theorem mapM_assert_total (xs : List SplunkValue)
    (h : ∀ e ∈ xs, ∃ s, e = SplunkValue.str s) :
    ∃ l, (xs.mapM (fun e => match e with | SplunkValue.str s => some s | _ => none)) = some l := by
  induction xs with
  | nil => exact ⟨[], rfl⟩
  | cons x rest ih =>
    obtain ⟨s, rfl⟩ := h x (List.mem_cons_self _ _)
    obtain ⟨l, hl⟩ := ih (fun e he => h e (List.mem_cons_of_mem _ he))
    refine ⟨s :: l, ?_⟩
    rw [List.mapM_cons, hl]
    rfl

theorem slice_total (a : SearchResult) (field : String)
    (h : ∀ p ∈ a, SplunkValue.stringElems p.2 = true) :
    ∃ l, a.slice field = some l := by
  unfold SearchResult.slice
  cases hl : a.lookupField field with
  | none => exact ⟨[], rfl⟩
  | some v =>
    have hv : v.stringElems = true := by
      unfold SearchResult.lookupField at hl
      cases hf : List.find? (fun p => p.1 == field) a with
      | none => rw [hf] at hl; cases hl
      | some p =>
        rw [hf] at hl
        simp only [Option.map_some', Option.some.injEq] at hl
        rw [← hl]
        exact h p (List.mem_of_find?_eq_some hf)
    cases v with
    | str s => exact ⟨[s], rfl⟩
    | strList xs => exact ⟨xs, rfl⟩
    | other r => exact ⟨[], rfl⟩
    | iface xs =>
      apply mapM_assert_total
      intro e he
      simp only [SplunkValue.stringElems, List.all_eq_true] at hv
      have := hv e he
      cases e with
      | str s => exact ⟨s, rfl⟩
      | strList _ => cases this
      | iface _ => cases this
      | other _ => cases this

theorem time_zero_of_unparsable (a : SearchResult) (field : String)
    (h : parseSplunkTime (a.string field) = none) :
    a.time field = GoTime.zero := by
  unfold SearchResult.time
  simp only [h, ite_self]

theorem detailsGo_eq_normalizeAll (rs : List SearchResult) (acc : List AlertDetails) :
    detailsGo rs acc
      = (normalizeAll rs).map (fun ds => acc ++ ds.filter (fun a => a.Valid)) := by
  induction rs generalizing acc with
  | nil => simp [detailsGo, normalizeAll]
  | cons r rest ih =>
    simp only [detailsGo, normalizeAll]
    cases h : NewAlertDetails r with
    | none => simp
    | some a =>
      dsimp only
      rw [ih]
      cases hrest : normalizeAll rest with
      | none => simp
      | some ds =>
        simp only [Option.map_some', List.filter_cons]
        by_cases hv : a.Valid
        · simp [hv, List.append_assoc]
        · simp [hv]

/-! ## Claim C1 -/

/-- Claim C1, counterexample: the claim says normalization never raises on
any RawResult, including heterogeneous JSON-decoded lists; but a
`[]interface{}` value containing a non-string element (here a number whose
`fmt.Sprint` rendering is `42`) makes the unchecked assertion `e.(string)`
inside `SearchResult.slice` panic, so `NewAlertDetails` panics (`none`). -/
theorem C1_counterexample :
    NewAlertDetails [("clusterid", SplunkValue.iface [SplunkValue.other "42"])] = none := rfl

/-- Claim C1 (amended): for every RawResult whose JSON-decoded list values
contain only string elements, `NewAlertDetails` never raises — absent or
ill-typed fields degrade to empty strings, empty sequences, or the zero
timestamp rather than failing. -/
theorem C1_amended (r : SearchResult)
    (h : ∀ p ∈ r, SplunkValue.stringElems p.2 = true) :
    ∃ a, NewAlertDetails r = some a ∧
      (r.lookupField "alertname" = none → a.AlertName = "") ∧
      (r.lookupField "clusterid" = none → a.ClusterIDs = []) ∧
      (parseSplunkTime (r.string "timestamp") = none → a.Timestamp = GoTime.zero) := by
  obtain ⟨cs, hcs⟩ := slice_total r "clusterid" h
  obtain ⟨es, hes⟩ := slice_total r "elevated_summary" h
  obtain ⟨qs, hqs⟩ := slice_total r "reason" h
  have hnew : NewAlertDetails r = some
      { AlertName := r.string "alertname"
        User := r.string "username"
        Group := r.string "group"
        Timestamp := r.time "timestamp"
        ClusterIDs := cs
        ClusterText := r.string "cluster_text"
        ElevatedSummary := es
        ElevatedSummaryText := r.string "elevated_summary_text"
        Reasons := qs
        ReasonsText := r.string "reason_text" } := by
    unfold NewAlertDetails
    rw [hcs, hes, hqs]
    rfl
  refine ⟨_, hnew, ?_, ?_, ?_⟩
  · intro hnone
    show r.string "alertname" = ""
    unfold SearchResult.string
    rw [hnone]
  · intro hnone
    show cs = []
    simp only [SearchResult.slice, hnone] at hcs
    injection hcs with hcs
    exact hcs.symm
  · intro hnone
    show r.time "timestamp" = GoTime.zero
    exact time_zero_of_unparsable r "timestamp" hnone

/-- Claim C1, witness for the amended theorem at a concrete record with one
absent list field, a scalar cluster id, and an unparsable timestamp. -/
theorem C1_amended_witness :
    ∃ a, NewAlertDetails [("alertname", SplunkValue.str "X"),
          ("clusterid", SplunkValue.str "c1"), ("timestamp", SplunkValue.str "junk")]
        = some a ∧
      (SearchResult.lookupField [("alertname", SplunkValue.str "X"),
          ("clusterid", SplunkValue.str "c1"), ("timestamp", SplunkValue.str "junk")]
          "alertname" = none → a.AlertName = "") ∧
      (SearchResult.lookupField [("alertname", SplunkValue.str "X"),
          ("clusterid", SplunkValue.str "c1"), ("timestamp", SplunkValue.str "junk")]
          "clusterid" = none → a.ClusterIDs = []) ∧
      (parseSplunkTime (SearchResult.string [("alertname", SplunkValue.str "X"),
          ("clusterid", SplunkValue.str "c1"), ("timestamp", SplunkValue.str "junk")]
          "timestamp") = none → a.Timestamp = GoTime.zero) :=
  C1_amended
    [("alertname", SplunkValue.str "X"), ("clusterid", SplunkValue.str "c1"),
      ("timestamp", SplunkValue.str "junk")]
    (by
      intro p hp
      simp only [List.mem_cons, List.not_mem_nil, or_false] at hp
      rcases hp with rfl | rfl | rfl <;> rfl)

/-! ## Claim C8 -/

/-- Claim C8: `Valid()` is true iff the alert name, user and group fields are
non-empty and the cluster-identifier sequence is non-empty; and the batch
filter `Details()` keeps exactly the valid normalized AlertDetails, in
order. -/
theorem C8_valid_iff_details_filter :
    (∀ a : AlertDetails,
        a.Valid = true ↔ a.AlertName ≠ "" ∧ a.User ≠ "" ∧ a.Group ≠ "" ∧ a.ClusterIDs ≠ []) ∧
    (∀ (w : Alert) (ds : List AlertDetails),
        normalizeAll w.SearchResults.Results = some ds →
        w.Details = some (ds.filter (fun a => a.Valid))) := by
  constructor
  · intro a
    unfold AlertDetails.Valid
    simp only [Bool.and_eq_true, bne_iff_ne, ne_eq, decide_eq_true_eq, and_assoc,
      gt_iff_lt, List.length_pos]
  · intro w ds h
    unfold Alert.Details
    rw [detailsGo_eq_normalizeAll, h]
    rfl

/-- Claim C8, witness: at a batch of two raw results, one valid and one with
an empty cluster list, `Details()` keeps exactly the valid one; and the iff
at the valid record. -/
theorem C8_witness :
    (AlertDetails.Valid
        { AlertName := "X", User := "U", Group := "G", Timestamp := GoTime.zero,
          ClusterIDs := ["c1"], ClusterText := "", ElevatedSummary := [],
          ElevatedSummaryText := "", Reasons := [], ReasonsText := "" } = true ↔
      ("X" : String) ≠ "" ∧ ("U" : String) ≠ "" ∧ ("G" : String) ≠ ""
        ∧ (["c1"] : List String) ≠ []) ∧
    (Alert.Details
        { SearchID := "sid",
          SearchResults :=
            { InitOffset := 0, Preview := false,
              Results :=
                [[("alertname", SplunkValue.str "X"), ("username", SplunkValue.str "U"),
                  ("group", SplunkValue.str "G"), ("clusterid", SplunkValue.strList ["c1"])],
                 [("alertname", SplunkValue.str "Y"), ("username", SplunkValue.str "V"),
                  ("group", SplunkValue.str "H"), ("clusterid", SplunkValue.strList [])]] } }
      = some (List.filter (fun a => a.Valid)
          [{ AlertName := "X", User := "U", Group := "G", Timestamp := GoTime.zero,
             ClusterIDs := ["c1"], ClusterText := "", ElevatedSummary := [],
             ElevatedSummaryText := "", Reasons := [], ReasonsText := "" },
           { AlertName := "Y", User := "V", Group := "H", Timestamp := GoTime.zero,
             ClusterIDs := [], ClusterText := "", ElevatedSummary := [],
             ElevatedSummaryText := "", Reasons := [], ReasonsText := "" }])) :=
  ⟨C8_valid_iff_details_filter.1 _,
    C8_valid_iff_details_filter.2 _ _ rfl⟩

/-! ## Batch-loop characterization (ProcessAlertHandler) -/

theorem processDetailsLoop_split (env : AlertEnv) (lu lm : String → String)
    (pre suffix : List AlertDetails) (n : Nat)
    (hldap : env.ldapEnabled = true →
      ∀ d ∈ pre, env.ldap d.User = .ok (lu d.User, lm d.User))
    (hcreate : ∀ i, i < pre.length → env.createTicket (n + i) = .ok ()) :
    processDetailsLoop env (pre ++ suffix) n
      = expectedBatchEvents env lu lm pre
          ++ processDetailsLoop env suffix (n + pre.length) := by
  induction pre generalizing n with
  | nil => simp [expectedBatchEvents]
  | cons d rest ih =>
    have h0 : env.createTicket n = .ok () := by
      have := hcreate 0 (by simp)
      simpa using this
    have ihx := ih (n + 1)
      (fun he d' hd' => hldap he d' (List.mem_cons_of_mem _ hd'))
      (fun i hi => by
        have h1 := hcreate (i + 1) (by simp; omega)
        rw [show n + 1 + i = n + (i + 1) by omega]
        exact h1)
    by_cases he : env.ldapEnabled = true
    · have hd := hldap he d (List.mem_cons_self _ _)
      simp only [List.cons_append, processDetailsLoop, expectedBatchEvents, eventsFor,
        he, if_true, hd, h0, List.append_eq]
      rw [ihx]
      simp only [List.length_cons]
      rw [show n + (rest.length + 1) = n + 1 + rest.length by omega]
      rfl
    · rw [Bool.not_eq_true] at he
      simp only [List.cons_append, processDetailsLoop, expectedBatchEvents, eventsFor,
        he, Bool.false_eq_true, if_false, h0, List.append_eq]
      rw [ihx]
      simp only [List.length_cons]
      rw [show n + (rest.length + 1) = n + 1 + rest.length by omega]
      rfl

/-! ## Claim C7 -/

/-- Claim C7: within one batch of validated alerts, ticket creations are
attempted in exactly the order the alerts appear in the search-result
sequence (each with the alert `Body()` as the description); if the creation
for the alert after `pre` fails, no later creation is attempted and the
request reports failure (a 500 write); already-made creations (those for
`pre`) stay in the trace (not rolled back). The second conjunct is the
fully successful batch: all creations in order followed by a 200. -/
theorem C7_batch_order_fail_fast :
    (∀ (env : AlertEnv) (wh : SplunkWebhook) (a : Alert) (pre : List AlertDetails)
        (d : AlertDetails) (rest : List AlertDetails) (lu lm : String → String) (err : String),
      env.decode = .ok wh →
      env.client = .ok () →
      env.search wh.Sid = .ok a →
      a.Details = some (pre ++ d :: rest) →
      (env.ldapEnabled = true →
        ∀ d' ∈ pre ++ [d], env.ldap d'.User = .ok (lu d'.User, lm d'.User)) →
      (∀ i, i < pre.length → env.createTicket i = .ok ()) →
      env.createTicket pre.length = .error err →
      ProcessAlertHandler env
        = (.searchCall wh.Sid :: (expectedBatchEvents env lu lm pre
            ++ eventsFor env lu lm d ++ [.write 500 genericErrorMsg]), some ())) ∧
    (∀ (env : AlertEnv) (wh : SplunkWebhook) (a : Alert) (ds : List AlertDetails)
        (lu lm : String → String),
      env.decode = .ok wh →
      env.client = .ok () →
      env.search wh.Sid = .ok a →
      a.Details = some ds →
      (env.ldapEnabled = true →
        ∀ d ∈ ds, env.ldap d.User = .ok (lu d.User, lm d.User)) →
      (∀ i, i < ds.length → env.createTicket i = .ok ()) →
      ProcessAlertHandler env
        = (.searchCall wh.Sid :: (expectedBatchEvents env lu lm ds
            ++ [.write 200 "ok"]), some ())) := by
  constructor
  · intro env wh a pre d rest lu lm err hdecode hclient hsearch hdetails hldap hok hfail
    have hloop : processDetailsLoop env (d :: rest) pre.length
        = eventsFor env lu lm d ++ [.write 500 genericErrorMsg] := by
      by_cases he : env.ldapEnabled = true
      · have hd := hldap he d (by simp)
        simp only [processDetailsLoop, eventsFor, he, if_true, hd, hfail]
        rfl
      · rw [Bool.not_eq_true] at he
        simp only [processDetailsLoop, eventsFor, he, Bool.false_eq_true, if_false, hfail]
        rfl
    unfold ProcessAlertHandler
    rw [hdecode]
    dsimp only
    rw [hclient]
    dsimp only
    rw [hsearch]
    dsimp only
    rw [hdetails]
    dsimp only
    rw [processDetailsLoop_split env lu lm pre (d :: rest) 0
        (fun he d' hd' => hldap he d' (List.mem_append_left _ hd'))
        (fun i hi => by simpa using hok i hi)]
    rw [Nat.zero_add, hloop, ← List.append_assoc]
  · intro env wh a ds lu lm hdecode hclient hsearch hdetails hldap hok
    unfold ProcessAlertHandler
    rw [hdecode]
    dsimp only
    rw [hclient]
    dsimp only
    rw [hsearch]
    dsimp only
    rw [hdetails]
    dsimp only
    rw [show ds = ds ++ [] by simp]
    rw [processDetailsLoop_split env lu lm ds [] 0
        (fun he d' hd' => hldap he d' (by simpa using hd'))
        (fun i hi => by simpa using hok i (by simpa using hi))]
    simp [processDetailsLoop, expectedBatchEvents]

/-- A valid alert detail used by concrete batch instances. -/
def sampleDetail : AlertDetails :=
  { AlertName := "X", User := "bob", Group := "G", Timestamp := GoTime.zero,
    ClusterIDs := ["c1"], ClusterText := "", ElevatedSummary := [],
    ElevatedSummaryText := "", Reasons := [], ReasonsText := "" }

/-- A one-result Splunk alert whose `Details()` is `[sampleDetail]`. -/
def sampleAlert : Alert :=
  { SearchID := "s7",
    SearchResults :=
      { InitOffset := 0, Preview := false,
        Results :=
          [[("alertname", SplunkValue.str "X"), ("username", SplunkValue.str "bob"),
            ("group", SplunkValue.str "G"), ("clusterid", SplunkValue.strList ["c1"])]] } }

/-- Concrete environment for the C7 failing-creation case: LDAP enabled and
resolving, the first `CreateTicket` call failing. -/
def c7EnvFail : AlertEnv :=
  { decode := .ok ⟨"s7"⟩, client := .ok (), search := fun _ => .ok sampleAlert,
    marshal := fun _ => .ok "", ldapEnabled := true,
    ldap := fun _ => .ok ("u1", "m1"), createTicket := fun _ => .error "boom" }

/-- Concrete environment for the C7 successful-batch case. -/
def c7EnvOk : AlertEnv :=
  { decode := .ok ⟨"s7"⟩, client := .ok (), search := fun _ => .ok sampleAlert,
    marshal := fun _ => .ok "", ldapEnabled := true,
    ldap := fun _ => .ok ("u1", "m1"), createTicket := fun _ => .ok () }

/-- Claim C7, witness: the failing-creation and successful-batch conclusions
at concrete one-alert batches (description `sampleDetail.Body`). -/
theorem C7_batch_order_fail_fast_witness :
    ProcessAlertHandler c7EnvFail
      = ([.searchCall "s7", .ldapCall "bob",
          .createTicketCall "u1" "m1" sampleDetail.Body,
          .write 500 genericErrorMsg], some ()) ∧
    ProcessAlertHandler c7EnvOk
      = ([.searchCall "s7", .ldapCall "bob",
          .createTicketCall "u1" "m1" sampleDetail.Body,
          .write 200 "ok"], some ()) :=
  ⟨C7_batch_order_fail_fast.1 c7EnvFail ⟨"s7"⟩ sampleAlert [] sampleDetail []
      (fun _ => "u1") (fun _ => "m1") "boom" rfl rfl rfl rfl
      (fun _ _ _ => rfl) (fun i hi => absurd hi (Nat.not_lt_zero i)) rfl,
    C7_batch_order_fail_fast.2 c7EnvOk ⟨"s7"⟩ sampleAlert [sampleDetail]
      (fun _ => "u1") (fun _ => "m1") rfl rfl rfl rfl
      (fun _ _ _ => rfl) (fun _ _ => rfl)⟩

/-! ## Claim C3 -/

/-- Claim C3: with identity correlation (LDAP) enabled, if the LDAP
resolution of a validated alert user fails, the handler files one
diagnostic ticket of the same kind as the search-failure fallback — a
`CreateTicket` call with no assignee whose body embeds the `%+v` rendering
of the AlertDetails and the lookup error — and aborts the whole batch with
the generic 500 failure response, processing no further alerts; the 500 is
written whether the diagnostic creation succeeds or fails, so no hypothesis
on its outcome is needed. -/
theorem C3_ldap_failure_diagnostic (env : AlertEnv) (wh : SplunkWebhook) (a : Alert)
    (pre : List AlertDetails) (d : AlertDetails) (rest : List AlertDetails)
    (lu lm : String → String) (e : String)
    (hdecode : env.decode = .ok wh)
    (hclient : env.client = .ok ())
    (hsearch : env.search wh.Sid = .ok a)
    (hdetails : a.Details = some (pre ++ d :: rest))
    (henabled : env.ldapEnabled = true)
    (hpre : ∀ d' ∈ pre, env.ldap d'.User = .ok (lu d'.User, lm d'.User))
    (hok : ∀ i, i < pre.length → env.createTicket i = .ok ())
    (hfail : env.ldap d.User = .error e) :
    ProcessAlertHandler env
      = (.searchCall wh.Sid :: (expectedBatchEvents env lu lm pre
          ++ [.ldapCall d.User,
              .createTicketCall "" "" (ldapDiagnosticDetails d e),
              .write 500 genericErrorMsg]), some ()) := by
  have hloop : processDetailsLoop env (d :: rest) pre.length
      = [.ldapCall d.User,
          .createTicketCall "" "" (ldapDiagnosticDetails d e),
          .write 500 genericErrorMsg] := by
    simp only [processDetailsLoop, henabled, if_true, hfail]
    cases env.createTicket pre.length <;> rfl
  unfold ProcessAlertHandler
  rw [hdecode]
  dsimp only
  rw [hclient]
  dsimp only
  rw [hsearch]
  dsimp only
  rw [hdetails]
  dsimp only
  rw [processDetailsLoop_split env lu lm pre (d :: rest) 0
      (fun _ d' hd' => hpre d' hd')
      (fun i hi => by simpa using hok i hi)]
  rw [Nat.zero_add, hloop]

/-- Concrete environment for C3: LDAP enabled, the batch has one valid alert
and its LDAP resolution fails; the diagnostic ticket creation succeeds. -/
def c3Env : AlertEnv :=
  { decode := .ok ⟨"s3"⟩, client := .ok (), search := fun _ => .ok sampleAlert,
    marshal := fun _ => .ok "", ldapEnabled := true,
    ldap := fun _ => .error "ldap down", createTicket := fun _ => .ok () }

/-- Claim C3, witness: the diagnostic-and-abort trace at the concrete
one-alert batch whose LDAP lookup fails. -/
theorem C3_ldap_failure_diagnostic_witness :
    ProcessAlertHandler c3Env
      = (.searchCall "s3" :: (expectedBatchEvents c3Env (fun _ => "u1") (fun _ => "m1") []
          ++ [.ldapCall "bob",
              .createTicketCall "" "" (ldapDiagnosticDetails sampleDetail "ldap down"),
              .write 500 genericErrorMsg]), some ()) :=
  C3_ldap_failure_diagnostic c3Env ⟨"s3"⟩ sampleAlert [] sampleDetail []
    (fun _ => "u1") (fun _ => "m1") "ldap down" rfl rfl rfl rfl rfl
    (fun d' hd' => absurd hd' (List.not_mem_nil d'))
    (fun i hi => absurd hi (Nat.not_lt_zero i)) rfl

/-! ## Claim C2 -/

/-- Claim C2: on a search-retrieval failure the handler makes exactly one
diagnostic `CreateTicket` call — no assignee (empty user and manager), body
embedding the search id, the best-effort JSON rendering of the webhook and
the retrieval error — and the generic 500 failure is written to the caller
both when that creation succeeds and when it fails (the model writes the
same 500 in both branches of the `createTicket` outcome, so no hypothesis
on it is needed). The two conjuncts cover a successful and a failed
webhook-rendering. -/
theorem C2_diagnostic_fallback (env : AlertEnv) (wh : SplunkWebhook) (e : String)
    (hdecode : env.decode = .ok wh)
    (hclient : env.client = .ok ())
    (hsearch : env.search wh.Sid = .error e) :
    (∀ aj, env.marshal wh = .ok aj →
      ProcessAlertHandler env
        = ([.searchCall wh.Sid,
            .createTicketCall "" "" (diagnosticDetails wh.Sid aj e none),
            .write 500 genericErrorMsg], some ())) ∧
    (∀ me, env.marshal wh = .error me →
      ProcessAlertHandler env
        = ([.searchCall wh.Sid,
            .createTicketCall "" "" (diagnosticDetails wh.Sid "" e (some me)),
            .write 500 genericErrorMsg], some ())) := by
  constructor
  · intro aj haj
    unfold ProcessAlertHandler
    rw [hdecode]
    dsimp only
    rw [hclient]
    dsimp only
    rw [hsearch]
    dsimp only
    rw [haj]
    dsimp only
    cases env.createTicket 0 <;> rfl
  · intro me hme
    unfold ProcessAlertHandler
    rw [hdecode]
    dsimp only
    rw [hclient]
    dsimp only
    rw [hsearch]
    dsimp only
    rw [hme]
    dsimp only
    cases env.createTicket 0 <;> rfl

/-- Concrete environment for C2 in which search retrieval fails, the webhook
renders to JSON, and the diagnostic ticket creation also fails. -/
def c2EnvRendered : AlertEnv :=
  { decode := .ok ⟨"s2"⟩, client := .ok (),
    search := fun _ => .error "search failed",
    marshal := fun _ => .ok "webhook-json", ldapEnabled := true,
    ldap := fun _ => .error "unused", createTicket := fun _ => .error "jira down" }

/-- Concrete environment for C2 in which search retrieval fails, the webhook
rendering itself fails, and the diagnostic ticket creation succeeds. -/
def c2EnvUnrendered : AlertEnv :=
  { decode := .ok ⟨"s2"⟩, client := .ok (),
    search := fun _ => .error "search failed",
    marshal := fun _ => .error "marshal broke", ldapEnabled := true,
    ldap := fun _ => .error "unused", createTicket := fun _ => .ok () }

/-- Claim C2, witness: the single diagnostic creation and the 500 write at a
failing-creation request with a rendered webhook, and at a
succeeding-creation request whose rendering failed (note appended). -/
theorem C2_diagnostic_fallback_witness :
    ProcessAlertHandler c2EnvRendered
      = ([.searchCall "s2",
          .createTicketCall "" "" (diagnosticDetails "s2" "webhook-json" "search failed" none),
          .write 500 genericErrorMsg], some ()) ∧
    ProcessAlertHandler c2EnvUnrendered
      = ([.searchCall "s2",
          .createTicketCall "" ""
            (diagnosticDetails "s2" "" "search failed" (some "marshal broke")),
          .write 500 genericErrorMsg], some ()) :=
  ⟨(C2_diagnostic_fallback c2EnvRendered ⟨"s2"⟩ "search failed" rfl rfl rfl).1
      "webhook-json" rfl,
    (C2_diagnostic_fallback c2EnvUnrendered ⟨"s2"⟩ "search failed" rfl rfl rfl).2
      "marshal broke" rfl⟩

/-! ## Claim C4 -/

theorem createTicket_dryRun_trace (cfg : AppCfg) (env : JiraEnv) (u m d : String)
    (hdry : cfg.DryRun = true) :
    (CreateTicket cfg env u m d).1 = [.getSelf]
      ∨ (CreateTicket cfg env u m d).1 = [.getSelf, .findUser u, .findUser m] := by
  unfold CreateTicket
  cases env.getSelf with
  | error e => left; rfl
  | ok reporter =>
    right
    simp only [hdry, if_true, getTransitionId]
    split
    · simp
    · split <;> simp

/-- Concrete dry-run configuration. -/
def dryRunCfg : AppCfg :=
  { DryRun := true, Verbose := false,
    MessageTemplate := { parse := .ok (fun s => .ok s) },
    IssueType := "Task", ProjectKey := "CMP",
    Transitions := [("initial", "In Progress"), ("sre", "SRE Responded"),
      ("manager", "Closed")] }

/-- Concrete environment in which every tracker read that dry-run mode is
claimed to still perform would fail (in particular `GetTransitions` errors),
while identity resolution succeeds. -/
def c4Env : JiraEnv :=
  { getSelf := .ok ⟨"self", "self"⟩,
    findUser := fun u => .ok [⟨u, u⟩],
    createIssue := fun _ => .error "unreachable create",
    addComment := fun _ _ => .error "unreachable comment",
    getIssue := fun _ => .error "unreachable get",
    getTransitions := fun _ => .error "transitions unavailable",
    doTransition := fun _ _ => .error "unreachable transition" }

/-- A concrete notification webhook. -/
def sampleNotification : JiraWebhook :=
  { Issue := { ID := "10001", Key := "CMP-1", Fields := { Labels := [], Assignee := none } },
    Comment := { Author := ⟨"alice", "Alice"⟩, Body := "done" } }

/-- Claim C4, counterexample: with dry-run enabled, `getTransitionId` returns
a placeholder without consulting the tracker, succeeding even though the
environment's transition listing always fails — so the transition-name
lookup does NOT still execute and can NOT still fail, contrary to the claim;
`CreateTicket` succeeds making only read calls, and `HandleUpdate` returns
immediately making no call at all. -/
theorem C4_counterexample :
    getTransitionId dryRunCfg c4Env "10001" "No Such Status"
      = ([], .ok "dry-run-transition-id") ∧
    CreateTicket dryRunCfg c4Env "alice" "mack" "body"
      = ([.getSelf, .findUser "alice", .findUser "mack"], .ok ()) ∧
    HandleUpdate dryRunCfg c4Env sampleNotification = ([], some (.ok ())) :=
  ⟨rfl, rfl, rfl⟩

/-- Claim C4 (amended): with dry-run enabled, no tracker-mutating call
(issue creation, comment posting, transition application) is ever issued by
ticket creation or notification handling; identity resolution (`GetSelf`)
still executes and can still fail, but the transition-id lookup is
short-circuited to a placeholder (no tracker call, cannot fail) and
notification handling returns immediately without any tracker call. -/
theorem C4_dry_run (cfg : AppCfg) (env : JiraEnv) (u m d : String) (wh : JiraWebhook)
    (issueId status : String) (hdry : cfg.DryRun = true) :
    (∀ c ∈ (CreateTicket cfg env u m d).1, c.isMutating = false) ∧
    HandleUpdate cfg env wh = ([], some (.ok ())) ∧
    getTransitionId cfg env issueId status = ([], .ok "dry-run-transition-id") ∧
    (∀ e, env.getSelf = .error e →
      (CreateTicket cfg env u m d).2
        = .error ("failed to get Jira user for reporter: " ++ e)) := by
  refine ⟨?_, ?_, ?_, ?_⟩
  · intro c hc
    rcases createTicket_dryRun_trace cfg env u m d hdry with h | h <;>
      rw [h] at hc <;> simp only [List.mem_cons, List.not_mem_nil, or_false] at hc
    · subst hc; rfl
    · rcases hc with rfl | rfl | rfl <;> rfl
  · simp [HandleUpdate, hdry]
  · simp [getTransitionId, hdry]
  · intro e he
    unfold CreateTicket
    rw [he]

/-- Claim C4, witness for the amended theorem at the concrete dry-run
configuration and environment. -/
theorem C4_dry_run_witness :
    (∀ c ∈ (CreateTicket dryRunCfg c4Env "alice" "mack" "body").1, c.isMutating = false) ∧
    HandleUpdate dryRunCfg c4Env sampleNotification = ([], some (.ok ())) ∧
    getTransitionId dryRunCfg c4Env "10001" "No Such Status"
      = ([], .ok "dry-run-transition-id") ∧
    (∀ e, c4Env.getSelf = .error e →
      (CreateTicket dryRunCfg c4Env "alice" "mack" "body").2
        = .error ("failed to get Jira user for reporter: " ++ e)) :=
  C4_dry_run dryRunCfg c4Env "alice" "mack" "body" sampleNotification
    "10001" "No Such Status" rfl

/-! ## Claim C5 -/

/-- Claim C5: with dry-run disabled, a notification whose comment author is
not the refetched issue's current assignee is a tracker no-op — the only
outbound call is the issue refetch (zero transition calls) and the handler
returns without error. -/
theorem C5_notification_guard (cfg : AppCfg) (env : JiraEnv) (wh : JiraWebhook)
    (issue : Issue) (a : JiraUser)
    (hdry : cfg.DryRun = false)
    (hget : env.getIssue wh.Issue.ID = .ok issue)
    (ha : issue.Fields.Assignee = some a)
    (hne : wh.Comment.Author.AccountID ≠ a.AccountID) :
    HandleUpdate cfg env wh = ([.getIssue wh.Issue.ID], some (.ok ())) := by
  unfold HandleUpdate
  rw [hdry]
  simp only [Bool.false_eq_true, if_false]
  rw [hget]
  dsimp only
  rw [ha]
  dsimp only
  rw [if_pos hne]

/-- The live (non-dry-run) configuration used by concrete notification
instances. -/
def liveCfg : AppCfg :=
  { DryRun := false, Verbose := false,
    MessageTemplate := { parse := .ok (fun s => .ok s) },
    IssueType := "Task", ProjectKey := "CMP",
    Transitions := [("initial", "In Progress"), ("sre", "SRE Responded"),
      ("manager", "Closed")] }

/-- A refetched live issue with correlation labels and assignee alice. -/
def liveIssue : Issue :=
  { ID := "10001", Key := "CMP-1",
    Fields :=
      { Labels := ["compliance-audit-router/managed",
          "compliance-audit-router/sre:alice", "compliance-audit-router/manager:mack"],
        Assignee := some ⟨"alice", "Alice"⟩ } }

/-- Environment whose issue refetch returns `liveIssue`. -/
def c5Env : JiraEnv :=
  { getSelf := .error "unused", findUser := fun _ => .error "unused",
    createIssue := fun _ => .error "unused", addComment := fun _ _ => .error "unused",
    getIssue := fun _ => .ok liveIssue,
    getTransitions := fun _ => .ok [⟨"31", "SRE Responded"⟩, ⟨"41", "Closed"⟩],
    doTransition := fun _ _ => .ok () }

/-- A notification whose comment author carol is not the assignee alice. -/
def c5Webhook : JiraWebhook :=
  { Issue := { ID := "10001", Key := "CMP-1", Fields := { Labels := [], Assignee := none } },
    Comment := { Author := ⟨"carol", "Carol"⟩, Body := "drive-by comment" } }

/-- Claim C5, witness: the no-op at the concrete non-assignee comment. -/
theorem C5_notification_guard_witness :
    HandleUpdate liveCfg c5Env c5Webhook = ([.getIssue "10001"], some (.ok ())) :=
  C5_notification_guard liveCfg c5Env c5Webhook liveIssue ⟨"alice", "Alice"⟩
    rfl rfl rfl (by decide)

/-! ## Claim C6 -/

/-- Claim C6: for a notification that passes the assignee guard, an author id
equal to the SRE id recovered from the labels resolves the `sre`-keyed
configured transition name; equal to the recovered manager id (and not the
SRE id) resolves the `manager`-keyed name; equal to neither resolves no name
(the zero value) and the subsequent transition-id lookup fails, surfacing an
error. -/
theorem C6_notification_routing (cfg : AppCfg) (env : JiraEnv) (wh : JiraWebhook)
    (issue : Issue) (a : JiraUser)
    (hdry : cfg.DryRun = false)
    (hget : env.getIssue wh.Issue.ID = .ok issue)
    (ha : issue.Fields.Assignee = some a)
    (hauth : wh.Comment.Author.AccountID = a.AccountID) :
    ((extractLabelIds issue.Fields.Labels).1 = wh.Comment.Author.AccountID →
      resolveTransitionName cfg (extractLabelIds issue.Fields.Labels).1
          (extractLabelIds issue.Fields.Labels).2 wh.Comment.Author.AccountID
        = transitionsGet cfg.Transitions sreTransitionKey) ∧
    ((extractLabelIds issue.Fields.Labels).1 ≠ wh.Comment.Author.AccountID →
      (extractLabelIds issue.Fields.Labels).2 = wh.Comment.Author.AccountID →
      resolveTransitionName cfg (extractLabelIds issue.Fields.Labels).1
          (extractLabelIds issue.Fields.Labels).2 wh.Comment.Author.AccountID
        = transitionsGet cfg.Transitions managerTransitionKey) ∧
    (∀ ts, (extractLabelIds issue.Fields.Labels).1 ≠ wh.Comment.Author.AccountID →
      (extractLabelIds issue.Fields.Labels).2 ≠ wh.Comment.Author.AccountID →
      env.getTransitions issue.ID = .ok ts →
      (∀ t ∈ ts, t.Name ≠ "") →
      resolveTransitionName cfg (extractLabelIds issue.Fields.Labels).1
          (extractLabelIds issue.Fields.Labels).2 wh.Comment.Author.AccountID = "" ∧
      HandleUpdate cfg env wh
        = ([.getIssue wh.Issue.ID, .getTransitions issue.ID],
            some (.error ("failed to get transition ID for status "
              ++ "" ++ " on issue " ++ issue.Key ++ ": "
              ++ ("did not find status " ++ ""))))) := by
  refine ⟨?_, ?_, ?_⟩
  · intro h1
    unfold resolveTransitionName
    rw [if_pos h1]
  · intro h1 h2
    unfold resolveTransitionName
    rw [if_neg h1, if_pos h2]
  · intro ts h1 h2 hts hno
    have hresolve : resolveTransitionName cfg (extractLabelIds issue.Fields.Labels).1
        (extractLabelIds issue.Fields.Labels).2 wh.Comment.Author.AccountID = "" := by
      unfold resolveTransitionName
      rw [if_neg h1, if_neg h2]
    refine ⟨hresolve, ?_⟩
    have hfind : ts.find? (fun t => t.Name == "") = none :=
      List.find?_eq_none.mpr (fun t ht => by simpa using hno t ht)
    unfold HandleUpdate
    rw [hdry]
    simp only [Bool.false_eq_true, if_false]
    rw [hget]
    dsimp only
    rw [ha]
    dsimp only
    rw [if_neg (fun hn => hn hauth)]
    rw [hresolve]
    unfold getTransitionId
    rw [hdry]
    simp only [Bool.false_eq_true, if_false]
    rw [hts]
    dsimp only
    rw [hfind]
    rfl

/-- Notification from the assignee alice, whose id is the recorded SRE id. -/
def c6WebhookSre : JiraWebhook :=
  { Issue := { ID := "10001", Key := "CMP-1", Fields := { Labels := [], Assignee := none } },
    Comment := { Author := ⟨"alice", "Alice"⟩, Body := "justified" } }

/-- A live issue assigned to the manager mack, with the usual labels. -/
def managerIssue : Issue :=
  { ID := "10002", Key := "CMP-2",
    Fields :=
      { Labels := ["compliance-audit-router/managed",
          "compliance-audit-router/sre:bob", "compliance-audit-router/manager:mack"],
        Assignee := some ⟨"mack", "Mack"⟩ } }

/-- Environment whose issue refetch returns `managerIssue`. -/
def c6EnvManager : JiraEnv :=
  { getSelf := .error "unused", findUser := fun _ => .error "unused",
    createIssue := fun _ => .error "unused", addComment := fun _ _ => .error "unused",
    getIssue := fun _ => .ok managerIssue,
    getTransitions := fun _ => .ok [⟨"31", "SRE Responded"⟩, ⟨"41", "Closed"⟩],
    doTransition := fun _ _ => .ok () }

/-- Notification from the assignee mack, whose id is the recorded manager
id. -/
def c6WebhookManager : JiraWebhook :=
  { Issue := { ID := "10002", Key := "CMP-2", Fields := { Labels := [], Assignee := none } },
    Comment := { Author := ⟨"mack", "Mack"⟩, Body := "approved" } }

/-- A live issue assigned to carol, whose id matches neither recorded label
id. -/
def strayIssue : Issue :=
  { ID := "10003", Key := "CMP-3",
    Fields :=
      { Labels := ["compliance-audit-router/managed",
          "compliance-audit-router/sre:bob", "compliance-audit-router/manager:mack"],
        Assignee := some ⟨"carol", "Carol"⟩ } }

/-- Environment whose issue refetch returns `strayIssue`. -/
def c6EnvStray : JiraEnv :=
  { getSelf := .error "unused", findUser := fun _ => .error "unused",
    createIssue := fun _ => .error "unused", addComment := fun _ _ => .error "unused",
    getIssue := fun _ => .ok strayIssue,
    getTransitions := fun _ => .ok [⟨"31", "SRE Responded"⟩, ⟨"41", "Closed"⟩],
    doTransition := fun _ _ => .ok () }

/-- Notification from the assignee carol, matching neither label id. -/
def c6WebhookStray : JiraWebhook :=
  { Issue := { ID := "10003", Key := "CMP-3", Fields := { Labels := [], Assignee := none } },
    Comment := { Author := ⟨"carol", "Carol"⟩, Body := "who am i" } }

/-- Claim C6, witness: the three routing outcomes at concrete label sets —
SRE author, manager author, and an author matching neither id (whose
transition lookup surfaces an error). -/
theorem C6_notification_routing_witness :
    (resolveTransitionName liveCfg (extractLabelIds liveIssue.Fields.Labels).1
        (extractLabelIds liveIssue.Fields.Labels).2 c6WebhookSre.Comment.Author.AccountID
      = transitionsGet liveCfg.Transitions sreTransitionKey) ∧
    (resolveTransitionName liveCfg (extractLabelIds managerIssue.Fields.Labels).1
        (extractLabelIds managerIssue.Fields.Labels).2 c6WebhookManager.Comment.Author.AccountID
      = transitionsGet liveCfg.Transitions managerTransitionKey) ∧
    (resolveTransitionName liveCfg (extractLabelIds strayIssue.Fields.Labels).1
        (extractLabelIds strayIssue.Fields.Labels).2 c6WebhookStray.Comment.Author.AccountID
      = "" ∧
     HandleUpdate liveCfg c6EnvStray c6WebhookStray
      = ([.getIssue "10003", .getTransitions "10003"],
          some (.error ("failed to get transition ID for status "
            ++ "" ++ " on issue " ++ "CMP-3" ++ ": "
            ++ ("did not find status " ++ ""))))) :=
  ⟨(C6_notification_routing liveCfg c5Env c6WebhookSre liveIssue ⟨"alice", "Alice"⟩
      rfl rfl rfl rfl).1 (by decide),
    (C6_notification_routing liveCfg c6EnvManager c6WebhookManager managerIssue
      ⟨"mack", "Mack"⟩ rfl rfl rfl rfl).2.1 (by decide) (by decide),
    (C6_notification_routing liveCfg c6EnvStray c6WebhookStray strayIssue
      ⟨"carol", "Carol"⟩ rfl rfl rfl rfl).2.2 [⟨"31", "SRE Responded"⟩, ⟨"41", "Closed"⟩]
      (by decide) (by decide) rfl (by decide)⟩

/-! ## Claim C9 -/

/-- Claim C9: with dry-run disabled, after a successful refetch the
notification handler evaluates the guard by dereferencing the issue
assignee unconditionally: when the live issue has no assignee the handler
panics (`none`) instead of treating the event as a no-op, and when an
assignee is present the handler never panics. -/
theorem C9_assignee_nil_panic (cfg : AppCfg) (env : JiraEnv) (wh : JiraWebhook)
    (issue : Issue)
    (hdry : cfg.DryRun = false)
    (hget : env.getIssue wh.Issue.ID = .ok issue) :
    (issue.Fields.Assignee = none → (HandleUpdate cfg env wh).2 = none) ∧
    (∀ a, issue.Fields.Assignee = some a → (HandleUpdate cfg env wh).2 ≠ none) := by
  constructor
  · intro ha
    unfold HandleUpdate
    rw [hdry]
    simp only [Bool.false_eq_true, if_false]
    rw [hget]
    dsimp only
    rw [ha]
  · intro a ha
    unfold HandleUpdate
    rw [hdry]
    simp only [Bool.false_eq_true, if_false]
    rw [hget]
    dsimp only
    rw [ha]
    dsimp only
    by_cases hne : wh.Comment.Author.AccountID ≠ a.AccountID
    · rw [if_pos hne]
      simp
    · rw [if_neg hne]
      split
      · simp
      · split <;> simp

/-- A live issue carrying the correlation labels but no assignee, as ticket
creation leaves it after a failed SRE identity resolution. -/
def nilAssigneeIssue : Issue :=
  { ID := "10004", Key := "CMP-4",
    Fields := { Labels := ["compliance-audit-router/sre:alice"], Assignee := none } }

/-- Environment whose issue refetch returns the unassigned issue. -/
def c9Env : JiraEnv :=
  { getSelf := .error "unused", findUser := fun _ => .error "unused",
    createIssue := fun _ => .error "unused", addComment := fun _ _ => .error "unused",
    getIssue := fun _ => .ok nilAssigneeIssue,
    getTransitions := fun _ => .ok [⟨"31", "SRE Responded"⟩],
    doTransition := fun _ _ => .ok () }

/-- Claim C9, witness: the handler panics at the concrete unassigned issue
and does not panic at the concrete assigned one. -/
theorem C9_assignee_nil_panic_witness :
    (HandleUpdate liveCfg c9Env c5Webhook).2 = none ∧
    (HandleUpdate liveCfg c5Env c5Webhook).2 ≠ none :=
  ⟨(C9_assignee_nil_panic liveCfg c9Env c5Webhook nilAssigneeIssue rfl rfl).1 rfl,
    (C9_assignee_nil_panic liveCfg c5Env c5Webhook liveIssue rfl rfl).2
      ⟨"alice", "Alice"⟩ rfl⟩

/-! ## Claim C10 -/

/-- Notification-webhook environment with a failed client construction. -/
def c10EnvJ : JiraWebhookEnv :=
  { decode := .ok sampleNotification, client := .error "no client",
    handleUpdate := .ok () }

/-- Claim C10, counterexample: the claim says that after a failed client
construction the handler still invokes `jira.HandleUpdate` and a second
response write may follow; but `jira.DefaultClient` returned a nil client,
so right after the 500 write the handler panics dereferencing `client.Issue`
— the produced trace is a single write, contains no `HandleUpdate`
invocation, and the request panics rather than writing again. -/
theorem C10_counterexample :
    ProcessJiraWebhook c10EnvJ = ([.write 500 genericErrorMsg], none) ∧
    [HEvent.write 500 genericErrorMsg].all (fun ev => !ev.isHandleUpdate) = true ∧
    [HEvent.write 500 genericErrorMsg].countP (fun ev => ev.isWrite) = 1 :=
  ⟨rfl, rfl, rfl⟩

/-- Claim C10 (amended): in the notification-webhook handler a failure to
construct the issue-tracker client writes the generic 500-class response and
does not return; but the request then panics dereferencing the nil client
value resulting from the failed construction, before `jira.HandleUpdate`
can be invoked, so no second response write follows — unlike the alert
handler, which returns cleanly after its single 500 write on
client-construction failure. -/
theorem C10_client_failure_panics (envJ : JiraWebhookEnv) (envA : AlertEnv)
    (wh : JiraWebhook) (wa : SplunkWebhook) (e1 e2 : String)
    (hdecodeJ : envJ.decode = .ok wh)
    (hclientJ : envJ.client = .error e1)
    (hdecodeA : envA.decode = .ok wa)
    (hclientA : envA.client = .error e2) :
    ProcessJiraWebhook envJ = ([.write 500 genericErrorMsg], none) ∧
    ProcessAlertHandler envA = ([.write 500 genericErrorMsg], some ()) := by
  constructor
  · unfold ProcessJiraWebhook
    rw [hdecodeJ]
    dsimp only
    rw [hclientJ]
  · unfold ProcessAlertHandler
    rw [hdecodeA]
    dsimp only
    rw [hclientA]

/-- Alert-handler environment with a failed client construction. -/
def c10EnvA : AlertEnv :=
  { decode := .ok ⟨"sX"⟩, client := .error "no client",
    search := fun _ => .error "unused", marshal := fun _ => .ok "",
    ldapEnabled := false, ldap := fun _ => .error "unused",
    createTicket := fun _ => .error "unused" }

/-- Claim C10, witness for the amended theorem: the single-write panic of the
notification handler and the single-write clean return of the alert handler
at concrete failed-client environments. -/
theorem C10_client_failure_panics_witness :
    ProcessJiraWebhook c10EnvJ = ([.write 500 genericErrorMsg], none) ∧
    ProcessAlertHandler c10EnvA = ([.write 500 genericErrorMsg], some ()) :=
  C10_client_failure_panics c10EnvJ c10EnvA sampleNotification ⟨"sX"⟩
    "no client" "no client" rfl rfl rfl rfl
